import Mathlib

/-!
Verification development for the LCA analysis pipeline
(`backend/` of the `hamsadhwan_LCA` repository).

The Python sources are shallowly embedded: pure transformations become Lean
functions on `List Char` / `String` / `ℚ`, external calls (S3, DynamoDB,
Bedrock LLM calls) become explicit oracle parameters or `Except` values,
and the per-file dictionaries become structures.  Wall-clock timing fields
(`processing_time_s`) and the persistence side effects (which the code
catches and logs) are outside the model.
-/

namespace LCA

/-! ## Python string primitives

Python `str` values are modelled as `String` (a sequence of characters);
the transformations are written over `List Char`.  `isPyWhitespace` models
the characters stripped by Python `str.strip()` and split on by
`str.split()` (the ASCII whitespace class, which covers every character
occurring in this pipeline). -/

def isPyWhitespace (c : Char) : Bool :=
  c == ' ' || c == '\t' || c == '\n' || c == '\r' || c == '\x0b' || c == '\x0c'

/-- Python `s.strip()` on the character list: drop whitespace from both ends. -/
def stripList (l : List Char) : List Char :=
  ((l.dropWhile isPyWhitespace).reverse.dropWhile isPyWhitespace).reverse

/-- Python `s.strip()`. -/
def pyStrip (s : String) : String :=
  String.mk (stripList s.toList)

/-- Python `s.split("\n")` on the character list: always returns at least one
(possibly empty) piece, one extra piece per newline character. -/
def splitNlChars : List Char → List (List Char)
  | [] => [[]]
  | c :: rest =>
    match splitNlChars rest with
    | [] => [[c]]
    | t :: ts => if c == '\n' then [] :: t :: ts else (c :: t) :: ts

/-- Python `"\n".join(lines)` on character lists. -/
def joinNlChars : List (List Char) → List Char
  | [] => []
  | [t] => t
  | t :: ts => t ++ '\n' :: joinNlChars ts

/-- Token counter for Python `len(s.split())`: counts maximal runs of
non-whitespace characters.  The flag records whether we are inside a run. -/
def countTokensAux : Bool → List Char → Nat
  | _, [] => 0
  | inWord, c :: rest =>
    if isPyWhitespace c then countTokensAux false rest
    else (if inWord then 0 else 1) + countTokensAux true rest

/-- Python `len(s.split())` — the whitespace-separated token count. -/
def pyWordCount (s : String) : Nat :=
  countTokensAux false s.toList

/-! ## `backend/normalization/markdown_converter.py` -/

/-- Number of `|` characters in a line (Python `line.count("|")`). -/
def countPipes (l : List Char) : Nat :=
  l.countP (fun c => c == '|')

/-- The regex `^\|.*\|$` applied to `line.strip()`:
at least two characters, starting and ending with a pipe.
(Lines produced by splitting on newlines never contain `'\n'`,
so the newline exclusion of `.` is vacuous.) -/
def isTableRow (l : List Char) : Bool :=
  let t := stripList l
  decide (2 ≤ t.length) && (t.head? == some '|') && (t.getLast? == some '|')

/-- The regex `^\|[\s\-:|]+\|$` applied to the stripped line: a pipe, a
nonempty run of whitespace / dash / colon / pipe characters, and a pipe. -/
def isSepRow (l : List Char) : Bool :=
  let t := stripList l
  decide (3 ≤ t.length) && (t.head? == some '|') && (t.getLast? == some '|')
    && ((t.drop 1).dropLast.all (fun c => isPyWhitespace c || c == '-' || c == ':' || c == '|'))

/-- The inserted separator `"| " + " | ".join(["---"] * cols) + " |"`. -/
def sepRowFor (cols : Nat) : List Char :=
  ("| " ++ String.intercalate " | " (List.replicate cols "---") ++ " |").toList

/-- The loop body of `ensure_table_separator`.  `prevTable` records whether
the previous line of the ORIGINAL list was a table row (the code inspects
`lines[i - 1]`, not the output built so far); it is `false` at index 0.
A separator is inserted after `line` exactly when the code's four
conditions hold: `line` is a table row, the next original line is a table
row but not a separator row, the pipe count of `line` exceeds one
(`cols > 0`), and the previous original line was not a table row. -/
def etsAux : Bool → List (List Char) → List (List Char)
  | _, [] => []
  | prevTable, line :: rest =>
    let ins :=
      isTableRow line &&
        (match rest with
         | next :: _ =>
           isTableRow next && !(isSepRow next) && decide (2 ≤ countPipes line) && !prevTable
         | [] => false)
    if ins then line :: sepRowFor (countPipes line - 1) :: etsAux (isTableRow line) rest
    else line :: etsAux (isTableRow line) rest

/-- Function `ensure_table_separator` from `markdown_converter.py`. -/
def ensure_table_separator (s : String) : String :=
  String.mk (joinNlChars (etsAux false (splitNlChars s.toList)))

/-- The loop of `deduplicate_consecutive_lines` after the first line:
drop each line equal to its predecessor. -/
def dedupAux : List Char → List (List Char) → List (List Char)
  | _, [] => []
  | prev, x :: rest => if x = prev then dedupAux prev rest else x :: dedupAux x rest

/-- Consecutive-duplicate removal on the line list (`prev` starts as `None`,
so the first line is always kept). -/
def dedupChars : List (List Char) → List (List Char)
  | [] => []
  | t :: ts => t :: dedupAux t ts

/-- Function `deduplicate_consecutive_lines` from `markdown_converter.py`. -/
def deduplicate_consecutive_lines (s : String) : String :=
  String.mk (joinNlChars (dedupChars (splitNlChars s.toList)))

/-! ## `backend/models/schemas.py` — `ParsedOutput` -/

/-- Model of `ParsedOutput` (Pydantic model).  `structured_json` is an arbitrary
key-value side channel, modelled as an association list; floats are
modelled as rationals. -/
structure ParsedOutput where
  file_id : String
  job_id : String
  agent : String
  markdown : String
  structured_json : List (String × String) := []
  lca_relevant : Bool := false
  confidence : ℚ := 0
  low_confidence_pages : List Int := []
  word_count : Nat := 0
  processing_time_s : ℚ := 0
  errors : List String := []
  warnings : List String := []
deriving DecidableEq, Repr

/-! ## `backend/normalization/normalizer.py` -/

/-- Function `normalize_output`: trim, ensure table separators, deduplicate
consecutive lines, recompute word count, cap confidence at 1.0.
Steps 6–7 of the source (S3 upload and DynamoDB update) are persistence
side effects whose failures the code catches and logs; they do not affect
the returned value and are outside the model. -/
def normalize_output (o : ParsedOutput) : ParsedOutput :=
  let m1 := pyStrip o.markdown
  let m2 := ensure_table_separator m1
  let m3 := deduplicate_consecutive_lines m2
  { o with
    markdown := m3
    word_count := pyWordCount m3
    confidence := min o.confidence 1 }

/-! ## `backend/validation` — rule track, semantic track, and the merge

`RuleValidator.validate` returns one dictionary per executed check; a
result with `passed = false` is a finding, tagged with its severity.
The concrete battery of regex checks is irrelevant to the orchestration
claims, so the rule track is an oracle `String → List RuleResult`.  The
two LLM calls are external and fallible; they are modelled as `Except`
values, and the `try/except` wrappers of `llm_validator.py` become total
functions. -/

/-- One entry of `RuleValidator.validate` output (`RuleValidationResult.to_dict`). -/
structure RuleResult where
  rule : String
  passed : Bool
  severity : String
  message : String
deriving DecidableEq, Repr

/-- The parsed JSON of a successful taxonomy validation call:
issue descriptions plus the three 0–100 sub-scores. -/
structure TaxonomyResult where
  issues : List String
  methodology_score : Int
  data_quality_score : Int
  completeness_score : Int
deriving DecidableEq, Repr

/-- The parsed JSON of a successful plausibility validation call. -/
structure PlausibilityResult where
  flags : List String
  overall_plausibility : String
deriving DecidableEq, Repr

/-- Method `LLMValidator.validate_taxonomy`: on any failure of the external call
(or an unparsable response) return all-zero scores and no issues. -/
def validate_taxonomy (call : Except String TaxonomyResult) : TaxonomyResult :=
  match call with
  | .ok r => r
  | .error _ => ⟨[], 0, 0, 0⟩

/-- Method `LLMValidator.validate_plausibility`: on any failure return no flags
and an unknown plausibility label. -/
def validate_plausibility (call : Except String PlausibilityResult) : PlausibilityResult :=
  match call with
  | .ok r => r
  | .error _ => ⟨[], "unknown"⟩

/-- Combined result of `LLMValidator.validate_all`. -/
structure LLMResult where
  taxonomy : TaxonomyResult
  plausibility : PlausibilityResult
deriving DecidableEq, Repr

/-- The external world seen by `validation_node`: the deterministic rule
battery and the two fallible LLM calls, all keyed by the markdown content. -/
structure ValidationEnv where
  ruleOf : String → List RuleResult
  taxonomyCall : String → Except String TaxonomyResult
  plausibilityCall : String → Except String PlausibilityResult

/-- Method `LLMValidator.validate_all` (the combination used by `validation_node`). -/
def validate_all (env : ValidationEnv) (markdown : String) : LLMResult :=
  ⟨validate_taxonomy (env.taxonomyCall markdown),
   validate_plausibility (env.plausibilityCall markdown)⟩

/-- One element of the `normalized_outputs` list as read by
`validation_node` (`output.get("file_id")`, `("filename")`, `("markdown")`). -/
structure NormalizedOutput where
  file_id : String
  filename : String
  markdown : String
deriving DecidableEq, Repr

/-- One element of `validation_reports` built by `validation_node`. -/
structure ValidationReport where
  file_id : String
  filename : String
  status : String
  rule_errors : List String
  rule_warnings : List String
  taxonomy_issues : List String
  cross_doc_conflicts : List String
  plausibility_flags : List String
  data_quality_rating : String
  llm_confidence_score : ℚ
deriving DecidableEq, Repr

/-- List `rule_errors` of `validation_node`: messages of non-passed results with
severity `error`. -/
def ruleErrors (rs : List RuleResult) : List String :=
  (rs.filter (fun r => !r.passed && r.severity == "error")).map (fun r => r.message)

/-- List `rule_warnings` of `validation_node`: messages of non-passed results with
severity `warning`. -/
def ruleWarnings (rs : List RuleResult) : List String :=
  (rs.filter (fun r => !r.passed && r.severity == "warning")).map (fun r => r.message)

/-- The data-quality bucketing of `validation_node`. -/
def dqRating (data_quality : Int) : String :=
  if 75 ≤ data_quality then "Good"
  else if 50 ≤ data_quality then "Fair"
  else if 25 ≤ data_quality then "Poor"
  else "Poor"

/-- The merge rule of `validation_node` (before the quarantine override). -/
def mergedStatus (rule_errors rule_warnings taxonomy_issues : List String) : String :=
  if !rule_errors.isEmpty then "failed"
  else if !rule_warnings.isEmpty || !taxonomy_issues.isEmpty then "passed_with_warnings"
  else "passed"

/-- The merged rule+semantic status of one file, as `validation_node`
computes it from the rule battery and the taxonomy call. -/
def mergedStatusOf (env : ValidationEnv) (markdown : String) : String :=
  mergedStatus (ruleErrors (env.ruleOf markdown)) (ruleWarnings (env.ruleOf markdown))
    (validate_taxonomy (env.taxonomyCall markdown)).issues

/-- The per-file body of the `validation_node` loop: build the report and,
when the merged status is `failed` and force-include is off, override the
status to `quarantined` and emit the file id for the quarantine list. -/
def validateFile (env : ValidationEnv) (force : Bool) (o : NormalizedOutput) :
    ValidationReport × Option String :=
  let rule_results := env.ruleOf o.markdown
  let rule_errors := ruleErrors rule_results
  let rule_warnings := ruleWarnings rule_results
  let llm := validate_all env o.markdown
  let taxonomy_issues := llm.taxonomy.issues
  let plausibility_flags := llm.plausibility.flags
  let status0 := mergedStatus rule_errors rule_warnings taxonomy_issues
  let quarantine := status0 == "failed" && !force
  let report : ValidationReport :=
    { file_id := o.file_id
      filename := o.filename
      status := if quarantine then "quarantined" else status0
      rule_errors := rule_errors
      rule_warnings := rule_warnings
      taxonomy_issues := taxonomy_issues
      cross_doc_conflicts := []
      plausibility_flags := plausibility_flags
      data_quality_rating := dqRating llm.taxonomy.data_quality_score
      llm_confidence_score := (llm.taxonomy.completeness_score : ℚ) / 100 }
  (report, if quarantine then some o.file_id else none)

/-- Node `validation_node` of `graph.py`: one report per normalized output, plus
the quarantined-id list accumulated in file order. -/
def validation_node (env : ValidationEnv) (force : Bool) :
    List NormalizedOutput → List ValidationReport × List String
  | [] => ([], [])
  | o :: rest =>
    let (report, q) := validateFile env force o
    let (reports, qs) := validation_node env force rest
    (report :: reports, q.toList ++ qs)

/-! ## `backend/orchestrator/dispatcher.py` -/

/-- The keys of the `AGENT_CLASSES` registry. -/
def AGENT_CLASSES_keys : List String :=
  ["excel_agent", "pdf_hybrid_agent", "pdf_text_agent", "pdf_scanned_agent",
   "image_vlm_agent", "mindmap_agent", "generic_agent", "image_agent"]

/-- A routed file task (`state.py` `FileTask`), as consumed by
`dispatch_file`.  The structural-hint dictionaries only feed the
`FileMetadata` handed to the agent, which is part of the agent oracle here. -/
structure FileTask where
  file_id : String
  job_id : String
  filename : String
  file_type : String
  s3_key : String
  agent : String
deriving DecidableEq, Repr

/-- What an agent's `safe_process` returns on the success path. -/
structure AgentResult where
  markdown : String
  structured_json : List (String × String)
  lca_relevant : Bool
  confidence : ℚ
  low_confidence_pages : List Int
  errors : List String
  warnings : List String
deriving DecidableEq, Repr

/-- The per-file dictionary `dispatch_file` returns (wall-clock
`processing_time_s` omitted from the model). -/
structure DispatchedOutput where
  file_id : String
  job_id : String
  filename : String
  file_type : String
  agent : String
  markdown : String
  structured_json : List (String × String)
  lca_relevant : Bool
  confidence : ℚ
  low_confidence_pages : List Int
  word_count : Nat
  errors : List String
  warnings : List String
  status : String
deriving DecidableEq, Repr

/-- The external world seen by `dispatch_file`: the S3 download (returning a
byte count) and the agent execution, both fallible.  DynamoDB status
updates are persistence side effects outside the model. -/
structure DispatchEnv where
  download : FileTask → Except String Nat
  agentRun : FileTask → Except String AgentResult

/-- The `except` branch of `dispatch_file`: a FAILED output carrying the
error message. -/
def failedOutput (t : FileTask) (msg : String) : DispatchedOutput :=
  { file_id := t.file_id
    job_id := t.job_id
    filename := t.filename
    file_type := t.file_type
    agent := t.agent
    markdown := ""
    structured_json := []
    lca_relevant := false
    confidence := 0
    low_confidence_pages := []
    word_count := 0
    errors := [msg]
    warnings := []
    status := "FAILED" }

/-- Function `dispatch_file`: download the bytes, look the agent up in
`AGENT_CLASSES` (an unknown agent raises `ValueError("Unknown agent: ...")`),
run the agent, and build the COMPLETED output; any exception along the way
is caught and converted to a FAILED output. -/
def dispatch_file (env : DispatchEnv) (t : FileTask) : DispatchedOutput :=
  match env.download t with
  | .error e => failedOutput t e
  | .ok _ =>
    if t.agent ∈ AGENT_CLASSES_keys then
      match env.agentRun t with
      | .error e => failedOutput t e
      | .ok r =>
        { file_id := t.file_id
          job_id := t.job_id
          filename := t.filename
          file_type := t.file_type
          agent := t.agent
          markdown := r.markdown
          structured_json := r.structured_json
          lca_relevant := r.lca_relevant
          confidence := r.confidence
          low_confidence_pages := r.low_confidence_pages
          word_count := pyWordCount r.markdown
          errors := r.errors
          warnings := r.warnings
          status := "COMPLETED" }
    else failedOutput t ("Unknown agent: " ++ t.agent)

/-- Node `agent_processing_node`: one `dispatch_file` call per task, gathered.
`dispatch_file` catches every exception internally, so the
`isinstance(output, Exception)` filter of the node never drops a result. -/
def agent_processing_node (env : DispatchEnv) (tasks : List FileTask) :
    List DispatchedOutput :=
  tasks.map (dispatch_file env)

/-! ## `backend/orchestrator/routing_node.py` -/

/-- The structural hints of a PDF (`pdf_structure` dictionary with its
`.get(..., False)` defaults).  `none` at the use site models a missing or
empty (falsy) dictionary. -/
structure PdfStructure where
  is_scanned : Bool
  has_text_layer : Bool
  has_embedded_images : Bool
  has_tables_heuristic : Bool
deriving DecidableEq, Repr

/-- The `FileType` enum values. -/
def fileTypeValues : List String :=
  ["EXCEL", "CSV", "PDF", "IMAGE", "MINDMAP_XMIND", "MINDMAP_FREEMIND",
   "DOCX", "TEXT", "PPTX", "UNKNOWN"]

/-- The deterministic `FILE_TYPE_TO_AGENT` routing table. -/
def FILE_TYPE_TO_AGENT : List (String × String) :=
  [("EXCEL", "excel_agent"), ("CSV", "excel_agent"), ("IMAGE", "image_vlm_agent"),
   ("MINDMAP_XMIND", "mindmap_agent"), ("MINDMAP_FREEMIND", "mindmap_agent"),
   ("DOCX", "generic_agent"), ("TEXT", "generic_agent"), ("PPTX", "generic_agent")]

/-- The PDF branch of `route_file`, taken when the structural hints are
present (truthy): scanned, then images-or-tables, then text layer, then a
hybrid default. -/
def routePdf (ps : PdfStructure) : String × String :=
  if ps.is_scanned then
    ("pdf_scanned_agent", "Fully scanned PDF detected — using OCR-focused agent")
  else if ps.has_embedded_images || ps.has_tables_heuristic then
    ("pdf_hybrid_agent", "PDF with mixed content (text + images/tables) — using hybrid agent")
  else if ps.has_text_layer then
    ("pdf_text_agent", "Text-only PDF — using text extraction agent")
  else
    ("pdf_hybrid_agent", "PDF structure unclear — defaulting to hybrid agent")

/-- Function `route_file`.  Parameter `llmRoute` models the LLM classifier consulted for
`UNKNOWN` types: `some (agent, reason)` when the call succeeded and its
response parsed to a dictionary with an `agent` key, `none` when the call
raised or the response was unusable (both fall through to the generic
fallback).  The quotation marks of the fallback reason f-string are elided. -/
def route_file (llmRoute : Option (String × String)) (file_type : String)
    (pdf_structure : Option PdfStructure) : String × String :=
  let ft := if file_type ∈ fileTypeValues then file_type else "UNKNOWN"
  match pdf_structure, ft == "PDF" with
  | some ps, true => routePdf ps
  | _, _ =>
    match (FILE_TYPE_TO_AGENT.find? (fun e => e.fst = ft)) with
    | some e => (e.snd, "Detected as " ++ ft ++ " file — routed to " ++ e.snd)
    | none =>
      match ft == "UNKNOWN", llmRoute with
      | true, some (agent, reason) => (agent, reason)
      | _, _ =>
        ("generic_agent", "Unknown file type " ++ file_type ++ " — defaulting to generic agent")

/-! ## `backend/synthesis/synthesis_agent.py` and `synthesis_node` -/

/-- One input to synthesis: a normalized output with its validation report
attached (`output["validation"] = val_report`; `none` models the empty
default dictionary when no report matches the file id). -/
structure SynthInput where
  output : NormalizedOutput
  validation : Option ValidationReport
deriving DecidableEq, Repr

/-- The `synthesis_result` dictionary. -/
structure SynthesisResult where
  doc_summaries : List String
  cross_doc_synthesis : String
  insights_markdown : String
  structured_insights : List (String × String)
deriving DecidableEq, Repr

/-- The three external synthesis stages (per-document summarization,
cross-document synthesis with the user context, insight extraction in its
free-text and structured forms), as oracles. -/
structure SynthesisOracles where
  summarizeAll : List SynthInput → List String
  crossDoc : List String → String → String
  extractInsights : String → String
  extractStructured : String → String → List (String × String)

/-- Function `run_synthesis`: stage 1, then stage 2 on its output, then stage 3 on
the cross-document narrative. -/
def run_synthesis (or : SynthesisOracles) (inputs : List SynthInput)
    (user_context : String) : SynthesisResult :=
  let doc_summaries := or.summarizeAll inputs
  let cross := or.crossDoc doc_summaries user_context
  let insights := or.extractInsights cross
  { doc_summaries := doc_summaries
    cross_doc_synthesis := cross
    insights_markdown := insights
    structured_insights := or.extractStructured cross insights }

/-- The input set `synthesis_node` hands to stage 1: the non-quarantined
normalized outputs, each with its validation report attached. -/
def synthesisInputs (normalized : List NormalizedOutput) (quarantined : List String)
    (reports : List ValidationReport) : List SynthInput :=
  (normalized.filter (fun o => o.file_id ∉ quarantined)).map
    (fun o => ⟨o, reports.find? (fun v => v.file_id = o.file_id)⟩)

/-- The stub result returned when every file is quarantined. -/
def emptySynthesisResult : SynthesisResult :=
  { doc_summaries := []
    cross_doc_synthesis := "No files available for synthesis."
    insights_markdown := ""
    structured_insights := [] }

/-- Node `synthesis_node`: filter out quarantined files; if nothing remains,
return the explanatory stub without invoking `run_synthesis`. -/
def synthesis_node (or : SynthesisOracles) (normalized : List NormalizedOutput)
    (quarantined : List String) (reports : List ValidationReport)
    (user_context : String) : SynthesisResult :=
  let inputs := synthesisInputs normalized quarantined reports
  if inputs.isEmpty then emptySynthesisResult
  else run_synthesis or inputs user_context

/-! ## `build_pipeline_graph`, `run_pipeline` and the force-include replay

`build_pipeline_graph` wires a linear `StateGraph`; `run_pipeline` invokes
the compiled graph, which always starts at the entry point.  The
`force-include-quarantined` endpoint of `main.py` rebuilds the full file
task list from the stored records and schedules `run_pipeline` with
`force_include_quarantined=True` as a background task. -/

/-- The edges added by `build_pipeline_graph` (`END` closes the chain). -/
def pipeline_edges : List (String × String) :=
  [("routing", "agent_processing"), ("agent_processing", "normalization"),
   ("normalization", "validation"), ("validation", "synthesis"),
   ("synthesis", "output"), ("output", "END")]

/-- The entry point set by `graph.set_entry_point`. -/
def pipeline_entry_point : String := "routing"

/-- Successor of a node along the linear edge list. -/
def nextStage (n : String) : Option String :=
  (pipeline_edges.find? (fun e => e.fst = n)).map (fun e => e.snd)

/-- The node sequence executed from a given node (fuel-bounded walk along
the edges; `END` terminates). -/
def traceFrom : Nat → String → List String
  | 0, _ => []
  | fuel + 1, n =>
    if n = "END" then []
    else n :: (match nextStage n with
               | some m => traceFrom fuel m
               | none => [])

/-- The stage sequence of one `run_pipeline` invocation. -/
def pipeline_trace : List String := traceFrom 8 pipeline_entry_point

/-- A pipeline run as scheduled by the API: the stages it executes and the
force-include flag it carries. -/
structure PipelineRun where
  stages : List String
  force_include_quarantined : Bool
deriving DecidableEq, Repr

/-- The run scheduled by `POST .../force-include-quarantined`: a full
`run_pipeline` invocation with `force_include_quarantined=True`. -/
def force_include_replay : PipelineRun :=
  { stages := pipeline_trace, force_include_quarantined := true }

/-! ## Concrete instances used by the witnesses and counterexamples -/

def c1_env : ValidationEnv :=
  ⟨fun _ => [⟨"functional_unit_check", false, "error", "missing"⟩],
   fun _ => .ok ⟨[], 80, 80, 90⟩, fun _ => .ok ⟨[], "high"⟩⟩

def c1_out : NormalizedOutput := ⟨"f1", "a.pdf", "some content"⟩

def c4_env1 : ValidationEnv :=
  ⟨fun _ => [], fun _ => .ok ⟨[], 80, 80, 90⟩, fun _ => .ok ⟨["value out of range"], "low"⟩⟩

def c4_env2 : ValidationEnv :=
  ⟨fun _ => [], fun _ => .ok ⟨[], 80, 80, 90⟩, fun _ => .ok ⟨[], "high"⟩⟩

def c9_env : ValidationEnv :=
  ⟨fun _ => [⟨"unit_check", true, "info", "ok"⟩],
   fun _ => .error "bedrock timeout", fun _ => .error "bedrock timeout"⟩

def c7_task_fail : FileTask :=
  ⟨"f1", "j1", "a.xlsx", "EXCEL", "uploads/j1/f1", "excel_agent"⟩

def c7_task_ok : FileTask :=
  ⟨"f2", "j1", "b.pdf", "PDF", "uploads/j1/f2", "pdf_text_agent"⟩

def c7_agent_result : AgentResult :=
  ⟨"# Report\ncontent", [], true, 9/10, [], [], []⟩

def c7_env : DispatchEnv :=
  ⟨fun _ => .ok 128,
   fun t => if t.file_id = "f1" then .error "decode error" else .ok c7_agent_result⟩

def c10_task : FileTask :=
  ⟨"f9", "j1", "c.bin", "UNKNOWN", "uploads/j1/f9", "chart_agent"⟩

def c10_env : DispatchEnv :=
  ⟨fun _ => .ok 64, fun _ => .ok c7_agent_result⟩

def c8_oracles : SynthesisOracles :=
  ⟨fun inputs => inputs.map (fun i => "summary of " ++ i.output.filename),
   fun _ _ => "cross-document narrative", fun _ => "insights",
   fun _ _ => [("functional_unit", "1 kg")]⟩

def c8_oracles2 : SynthesisOracles :=
  ⟨fun _ => [], fun _ _ => "", fun _ => "", fun _ _ => []⟩

def c3_bad : ParsedOutput :=
  { file_id := "f0", job_id := "j0", agent := "generic_agent",
    markdown := "hello world", confidence := -(1 / 2 : ℚ) }

def c3_good : ParsedOutput :=
  { file_id := "f1", job_id := "j0", agent := "excel_agent",
    markdown := "| GWP | kg CO2 eq |", confidence := 7 / 10 }

def c5_bad : ParsedOutput :=
  { file_id := "f2", job_id := "j0", agent := "pdf_text_agent",
    markdown := "|---|\n|---|\n| 1 |", confidence := 1 }

/-! ## Helper lemmas -/

lemma mergedStatus_ne_quarantined (a b c : List String) :
    mergedStatus a b c ≠ "quarantined" := by
  unfold mergedStatus
  split_ifs <;> decide

lemma mergedStatusOf_ne_quarantined (env : ValidationEnv) (md : String) :
    mergedStatusOf env md ≠ "quarantined" :=
  mergedStatus_ne_quarantined _ _ _

/-- The status `validateFile` writes, as a function of the merged status. -/
lemma validateFile_status (env : ValidationEnv) (force : Bool) (o : NormalizedOutput) :
    (validateFile env force o).1.status
      = (if mergedStatusOf env o.markdown = "failed" ∧ force = false
         then "quarantined" else mergedStatusOf env o.markdown) := by
  simp only [validateFile, mergedStatusOf, validate_all]
  rcases force with _ | _ <;>
    by_cases h : mergedStatus (ruleErrors (env.ruleOf o.markdown))
      (ruleWarnings (env.ruleOf o.markdown))
      (validate_taxonomy (env.taxonomyCall o.markdown)).issues = "failed" <;>
    simp [h]

/-- The quarantine emission of `validateFile`. -/
lemma validateFile_quarantine (env : ValidationEnv) (force : Bool) (o : NormalizedOutput) :
    (validateFile env force o).2
      = (if mergedStatusOf env o.markdown = "failed" ∧ force = false
         then some o.file_id else none) := by
  simp only [validateFile, mergedStatusOf, validate_all]
  rcases force with _ | _ <;>
    by_cases h : mergedStatus (ruleErrors (env.ruleOf o.markdown))
      (ruleWarnings (env.ruleOf o.markdown))
      (validate_taxonomy (env.taxonomyCall o.markdown)).issues = "failed" <;>
    simp [h]

lemma validation_node_quarantine_nil (env : ValidationEnv) :
    ∀ outs, (validation_node env true outs).2 = [] := by
  intro outs
  induction outs with
  | nil => rfl
  | cons o rest ih =>
    simp [validation_node, validateFile_quarantine, ih]

lemma validation_node_length (env : ValidationEnv) (force : Bool) :
    ∀ outs, (validation_node env force outs).1.length = outs.length := by
  intro outs
  induction outs with
  | nil => rfl
  | cons o rest ih => simp [validation_node, ih]

lemma ruleErrors_eq_nil_iff (rs : List RuleResult) :
    ruleErrors rs = [] ↔ ¬ ∃ r ∈ rs, r.passed = false ∧ r.severity = "error" := by
  simp [ruleErrors, List.map_eq_nil_iff, List.filter_eq_nil_iff]

lemma ruleWarnings_eq_nil_iff (rs : List RuleResult) :
    ruleWarnings rs = [] ↔ ¬ ∃ r ∈ rs, r.passed = false ∧ r.severity = "warning" := by
  simp [ruleWarnings, List.map_eq_nil_iff, List.filter_eq_nil_iff]

/-! ## Claims about the validation merge and quarantine decision -/

/-- C1.  A file's validation status is `quarantined` iff its merged
rule+semantic status is `failed` and the force-include flag is off; with the
flag on, the status stays at the merged status (`failed` in that case) and
no file id is ever added to the quarantine list. -/
theorem C1_quarantine_iff (env : ValidationEnv) (force : Bool) (o : NormalizedOutput) :
    ((validateFile env force o).1.status = "quarantined"
      ↔ mergedStatusOf env o.markdown = "failed" ∧ force = false)
    ∧ (force = true →
        (validateFile env force o).1.status = mergedStatusOf env o.markdown
        ∧ (validateFile env force o).2 = none)
    ∧ (∀ outs, (validation_node env true outs).2 = []) := by
  refine ⟨?_, ?_, validation_node_quarantine_nil env⟩
  · rw [validateFile_status]
    split_ifs with h
    · simp [h]
    · simp only [h, iff_false]
      exact mergedStatusOf_ne_quarantined env o.markdown
  · intro hf
    subst hf
    rw [validateFile_status, validateFile_quarantine]
    simp

/-- Witness for C1 at a concrete failing file with the force flag on. -/
theorem C1_quarantine_iff_witness :
    (validateFile c1_env true c1_out).1.status = mergedStatusOf c1_env c1_out.markdown
    ∧ (validateFile c1_env true c1_out).2 = none :=
  (C1_quarantine_iff c1_env true c1_out).2.1 rfl

/-- The merge rule, restated with the findings spelled out: an error-severity
finding in the rule track forces `failed`; else a warning-severity finding or
a taxonomy issue forces `passed_with_warnings`; else `passed`. -/
lemma mergedStatus_eq_cases (rs : List RuleResult) (tax : TaxonomyResult) :
    mergedStatus (ruleErrors rs) (ruleWarnings rs) tax.issues
      = if ∃ r ∈ rs, r.passed = false ∧ r.severity = "error" then "failed"
        else if (∃ r ∈ rs, r.passed = false ∧ r.severity = "warning") ∨ tax.issues ≠ []
        then "passed_with_warnings"
        else "passed" := by
  classical
  have he := ruleErrors_eq_nil_iff rs
  have hw := ruleWarnings_eq_nil_iff rs
  by_cases hE : ∃ r ∈ rs, r.passed = false ∧ r.severity = "error"
  · have h1 : (ruleErrors rs).isEmpty = false := by
      rcases h : ruleErrors rs with _ | _
      · exact absurd hE (he.mp h)
      · rfl
    simp [mergedStatus, h1, hE]
  · have h1 : (ruleErrors rs).isEmpty = true := by
      rw [List.isEmpty_iff]
      exact he.mpr hE
    by_cases hW : ∃ r ∈ rs, r.passed = false ∧ r.severity = "warning"
    · have h2 : (ruleWarnings rs).isEmpty = false := by
        rcases h : ruleWarnings rs with _ | _
        · exact absurd hW (hw.mp h)
        · rfl
      simp [mergedStatus, h1, h2, hE, hW]
    · have h2 : (ruleWarnings rs).isEmpty = true := by
        rw [List.isEmpty_iff]
        exact hw.mpr hW
      by_cases hT : tax.issues = []
      · simp [mergedStatus, h1, h2, hE, hW, hT]
      · have h3 : tax.issues.isEmpty = false := by
          rcases h : tax.issues with _ | _
          · exact absurd h hT
          · rfl
        simp [mergedStatus, h1, h2, h3, hE, hW, hT]

/-- C4.  The merged status is `failed` iff the rule track has an
error-severity finding; otherwise `passed_with_warnings` iff the rule track
has a warning-severity finding or the semantic track reports a taxonomy
issue; otherwise `passed`.  The final clause: the plausibility call never
influences the status. -/
theorem C4_merge_rule (rs : List RuleResult) (tax : TaxonomyResult) :
    (mergedStatus (ruleErrors rs) (ruleWarnings rs) tax.issues = "failed"
      ↔ ∃ r ∈ rs, r.passed = false ∧ r.severity = "error")
    ∧ (mergedStatus (ruleErrors rs) (ruleWarnings rs) tax.issues = "passed_with_warnings"
      ↔ (¬ ∃ r ∈ rs, r.passed = false ∧ r.severity = "error")
        ∧ ((∃ r ∈ rs, r.passed = false ∧ r.severity = "warning") ∨ tax.issues ≠ []))
    ∧ (mergedStatus (ruleErrors rs) (ruleWarnings rs) tax.issues = "passed"
      ↔ (¬ ∃ r ∈ rs, r.passed = false ∧ r.severity = "error")
        ∧ (¬ ∃ r ∈ rs, r.passed = false ∧ r.severity = "warning") ∧ tax.issues = [])
    ∧ (∀ (env1 env2 : ValidationEnv) (force : Bool) (o : NormalizedOutput),
        env1.ruleOf = env2.ruleOf → env1.taxonomyCall = env2.taxonomyCall →
        (validateFile env1 force o).1.status = (validateFile env2 force o).1.status) := by
  classical
  rw [mergedStatus_eq_cases]
  refine ⟨?_, ?_, ?_, ?_⟩
  · by_cases hE : ∃ r ∈ rs, r.passed = false ∧ r.severity = "error" <;>
      by_cases hW : ∃ r ∈ rs, r.passed = false ∧ r.severity = "warning" <;>
      by_cases hT : tax.issues = [] <;>
      simp [hE, hW, hT]
  · by_cases hE : ∃ r ∈ rs, r.passed = false ∧ r.severity = "error" <;>
      by_cases hW : ∃ r ∈ rs, r.passed = false ∧ r.severity = "warning" <;>
      by_cases hT : tax.issues = [] <;>
      simp [hE, hW, hT]
  · by_cases hE : ∃ r ∈ rs, r.passed = false ∧ r.severity = "error" <;>
      by_cases hW : ∃ r ∈ rs, r.passed = false ∧ r.severity = "warning" <;>
      by_cases hT : tax.issues = [] <;>
      simp [hE, hW, hT]
  · intro env1 env2 force o h1 h2
    rw [validateFile_status, validateFile_status]
    unfold mergedStatusOf
    rw [h1, h2]

/-- Witness for C4: two environments differing only in the plausibility
call produce the same status. -/
theorem C4_merge_rule_witness :
    (validateFile c4_env1 false c1_out).1.status
      = (validateFile c4_env2 false c1_out).1.status :=
  (C4_merge_rule [] ⟨[], 80, 80, 90⟩).2.2.2 c4_env1 c4_env2 false c1_out rfl rfl

/-- C9.  When both semantic calls fail, their contribution degrades to zero
scores and empty finding lists, the file still gets a report (one report per
input, no exception propagates), and a file whose rule track produced no
findings is `passed` with `llm_confidence_score` 0. -/
theorem C9_semantic_failure (env : ValidationEnv) (force : Bool) (o : NormalizedOutput)
    (e1 e2 : String)
    (hrule : ∀ r ∈ env.ruleOf o.markdown, r.passed = true)
    (htax : env.taxonomyCall o.markdown = .error e1)
    (hpl : env.plausibilityCall o.markdown = .error e2) :
    validate_taxonomy (env.taxonomyCall o.markdown) = ⟨[], 0, 0, 0⟩
    ∧ validate_plausibility (env.plausibilityCall o.markdown) = ⟨[], "unknown"⟩
    ∧ (validateFile env force o).1.status = "passed"
    ∧ (validateFile env force o).1.llm_confidence_score = 0
    ∧ (validateFile env force o).1.taxonomy_issues = []
    ∧ (validateFile env force o).1.plausibility_flags = []
    ∧ (validateFile env force o).2 = none
    ∧ (∀ outs, (validation_node env force outs).1.length = outs.length) := by
  have hE : ¬ ∃ r ∈ env.ruleOf o.markdown, r.passed = false ∧ r.severity = "error" := by
    rintro ⟨r, hr, hp, -⟩
    rw [hrule r hr] at hp
    cases hp
  have hW : ¬ ∃ r ∈ env.ruleOf o.markdown, r.passed = false ∧ r.severity = "warning" := by
    rintro ⟨r, hr, hp, -⟩
    rw [hrule r hr] at hp
    cases hp
  have htax0 : validate_taxonomy (env.taxonomyCall o.markdown) = ⟨[], 0, 0, 0⟩ := by
    rw [htax]; rfl
  have hmerged : mergedStatusOf env o.markdown = "passed" := by
    unfold mergedStatusOf
    rw [htax0]
    rw [mergedStatus_eq_cases (env.ruleOf o.markdown) ⟨[], 0, 0, 0⟩]
    simp [hE, hW]
  refine ⟨htax0, by rw [hpl]; rfl, ?_, ?_, ?_, ?_, ?_, validation_node_length env force⟩
  · rw [validateFile_status, hmerged]
    simp
  · simp [validateFile, validate_all, htax0]
  · simp [validateFile, validate_all, htax0]
  · simp [validateFile, validate_all, hpl, validate_plausibility]
  · rw [validateFile_quarantine, hmerged]
    simp

/-- Witness for C9 at a concrete file whose semantic calls both fail. -/
theorem C9_semantic_failure_witness :
    (validateFile c9_env false c1_out).1.status = "passed"
    ∧ (validateFile c9_env false c1_out).1.llm_confidence_score = 0 := by
  have h := C9_semantic_failure c9_env false c1_out "bedrock timeout" "bedrock timeout"
    (by intro r hr; simp [c9_env] at hr; subst hr; rfl) rfl rfl
  exact ⟨h.2.2.1, h.2.2.2.1⟩

/-! ## Claims about dispatch -/

/-- C7.  Dispatch returns exactly one output per task, in task order (the
output at index `i` is a function of task `i` alone, so one task's failure
cannot affect a sibling); a failing agent call yields a FAILED output
carrying the error message, and a task whose own call succeeds yields a
COMPLETED output. -/
theorem C7_dispatch_isolation (env : DispatchEnv) (tasks : List FileTask) (t : FileTask) :
    (agent_processing_node env tasks).length = tasks.length
    ∧ (∀ i, (agent_processing_node env tasks).get? i = (tasks.get? i).map (dispatch_file env))
    ∧ (dispatch_file env t).file_id = t.file_id
    ∧ (dispatch_file env t).job_id = t.job_id
    ∧ (∀ n, env.download t = .ok n → t.agent ∈ AGENT_CLASSES_keys →
        (∀ e, env.agentRun t = .error e →
          (dispatch_file env t).status = "FAILED" ∧ (dispatch_file env t).errors = [e])
        ∧ (∀ r, env.agentRun t = .ok r →
          (dispatch_file env t).status = "COMPLETED")) := by
  refine ⟨by simp [agent_processing_node], fun i => by simp [agent_processing_node],
    ?_, ?_, ?_⟩
  · rcases h : env.download t with e | n <;> rcases h2 : env.agentRun t with e2 | r2 <;>
      by_cases hm : t.agent ∈ AGENT_CLASSES_keys <;>
      simp [dispatch_file, h, h2, hm, failedOutput]
  · rcases h : env.download t with e | n <;> rcases h2 : env.agentRun t with e2 | r2 <;>
      by_cases hm : t.agent ∈ AGENT_CLASSES_keys <;>
      simp [dispatch_file, h, h2, hm, failedOutput]
  · intro n hdl hmem
    refine ⟨fun e hrun => ?_, fun r hrun => ?_⟩
    · constructor <;> simp [dispatch_file, hdl, hrun, hmem, failedOutput]
    · simp [dispatch_file, hdl, hrun, hmem]

/-- Witness for C7: with two tasks, the first one failing, the second
still completes. -/
theorem C7_dispatch_isolation_witness :
    (agent_processing_node c7_env [c7_task_fail, c7_task_ok]).length = 2
    ∧ (dispatch_file c7_env c7_task_fail).status = "FAILED"
    ∧ (dispatch_file c7_env c7_task_fail).errors = ["decode error"]
    ∧ (dispatch_file c7_env c7_task_ok).status = "COMPLETED" := by
  have h1 := C7_dispatch_isolation c7_env [c7_task_fail, c7_task_ok] c7_task_fail
  have h2 := C7_dispatch_isolation c7_env [c7_task_fail, c7_task_ok] c7_task_ok
  have hfail := (h1.2.2.2.2 128 rfl (by decide)).1 "decode error" rfl
  exact ⟨h1.1, hfail.1, hfail.2, (h2.2.2.2.2 128 rfl (by decide)).2 c7_agent_result rfl⟩

/-- C10.  A task whose assigned agent is not in the registry does not raise:
`dispatch_file` returns a FAILED output with confidence 0, empty markdown,
`lca_relevant` false and the unknown-agent message as its only error. -/
theorem C10_unknown_agent (env : DispatchEnv) (t : FileTask) (n : Nat)
    (hdl : env.download t = .ok n) (hag : t.agent ∉ AGENT_CLASSES_keys) :
    dispatch_file env t = failedOutput t ("Unknown agent: " ++ t.agent)
    ∧ (dispatch_file env t).status = "FAILED"
    ∧ (dispatch_file env t).confidence = 0
    ∧ (dispatch_file env t).markdown = ""
    ∧ (dispatch_file env t).lca_relevant = false
    ∧ (dispatch_file env t).errors = ["Unknown agent: " ++ t.agent]
    ∧ (dispatch_file env t).errors ≠ [] := by
  have h : dispatch_file env t = failedOutput t ("Unknown agent: " ++ t.agent) := by
    unfold dispatch_file
    rw [hdl]
    simp [hag]
  refine ⟨h, ?_, ?_, ?_, ?_, ?_, ?_⟩ <;> rw [h] <;> simp [failedOutput]

/-- Witness for C10 at a concrete task routed to a nonexistent agent. -/
theorem C10_unknown_agent_witness :
    (dispatch_file c10_env c10_task).status = "FAILED"
    ∧ (dispatch_file c10_env c10_task).errors = ["Unknown agent: chart_agent"] := by
  have h := C10_unknown_agent c10_env c10_task 64 rfl (by decide)
  exact ⟨h.2.1, h.2.2.2.2.2.1⟩

/-! ## Claims about routing -/

/-- C6 counterexample.  A PDF whose structural-hints dictionary is missing
is routed to the generic agent, not to the hybrid agent the claim
promises. -/
theorem C6_counterexample :
    (route_file none "PDF" none).fst = "generic_agent"
    ∧ (route_file none "PDF" none).fst ≠ "pdf_hybrid_agent" := by
  decide

/-- C6 (amended).  With the structural-hints dictionary present, PDF routing
follows the priority scanned → hybrid (images/tables) → text, defaults to
hybrid when every flag is false, and never picks the generic agent; with the
hints missing (or the dictionary empty), the PDF falls through to the
generic-agent fallback. -/
theorem C6_pdf_routing (llm : Option (String × String)) (ps : PdfStructure) :
    (ps.is_scanned = true → (route_file llm "PDF" (some ps)).fst = "pdf_scanned_agent")
    ∧ (ps.is_scanned = false →
        ps.has_embedded_images = true ∨ ps.has_tables_heuristic = true →
        (route_file llm "PDF" (some ps)).fst = "pdf_hybrid_agent")
    ∧ (ps.is_scanned = false → ps.has_embedded_images = false →
        ps.has_tables_heuristic = false → ps.has_text_layer = true →
        (route_file llm "PDF" (some ps)).fst = "pdf_text_agent")
    ∧ (ps.is_scanned = false → ps.has_embedded_images = false →
        ps.has_tables_heuristic = false → ps.has_text_layer = false →
        (route_file llm "PDF" (some ps)).fst = "pdf_hybrid_agent")
    ∧ (route_file llm "PDF" (some ps)).fst ≠ "generic_agent"
    ∧ (route_file llm "PDF" none).fst = "generic_agent" := by
  obtain ⟨sc, tx, im, tb⟩ := ps
  have hps : route_file llm "PDF" (some ⟨sc, tx, im, tb⟩) = routePdf ⟨sc, tx, im, tb⟩ := rfl
  have hnone : (route_file llm "PDF" none).fst = "generic_agent" := by
    rcases llm with _ | ⟨a, r⟩ <;> rfl
  refine ⟨?_, ?_, ?_, ?_, ?_, hnone⟩ <;>
    rcases sc <;> rcases tx <;> rcases im <;> rcases tb <;>
      simp [hps, routePdf]

/-- Witness for C6 (amended): a fully scanned PDF goes to the scanned
agent even with every other flag set. -/
theorem C6_pdf_routing_witness :
    (route_file none "PDF" (some ⟨true, true, true, true⟩)).fst = "pdf_scanned_agent" :=
  (C6_pdf_routing none ⟨true, true, true, true⟩).1 rfl

/-! ## Claims about synthesis -/

/-- C8.  If every file is excluded (the stage-1 input set is empty), the
synthesis node returns the explanatory stub with an empty summary list, and
none of the three synthesis stages is invoked (the result does not depend
on the stage oracles). -/
theorem C8_empty_synthesis (orc orc2 : SynthesisOracles)
    (normalized : List NormalizedOutput) (quarantined : List String)
    (reports : List ValidationReport) (ctx : String)
    (h : synthesisInputs normalized quarantined reports = []) :
    synthesis_node orc normalized quarantined reports ctx = emptySynthesisResult
    ∧ (synthesis_node orc normalized quarantined reports ctx).doc_summaries = []
    ∧ (synthesis_node orc normalized quarantined reports ctx).cross_doc_synthesis
        = "No files available for synthesis."
    ∧ synthesis_node orc normalized quarantined reports ctx
        = synthesis_node orc2 normalized quarantined reports ctx := by
  have hs : ∀ (o : SynthesisOracles),
      synthesis_node o normalized quarantined reports ctx = emptySynthesisResult := by
    intro o
    unfold synthesis_node
    rw [h]
    rfl
  refine ⟨hs orc, ?_, ?_, ?_⟩
  · rw [hs orc]; rfl
  · rw [hs orc]; rfl
  · rw [hs orc, hs orc2]

/-- Witness for C8: one file, quarantined, force-include off — the stub
comes back and the oracles are irrelevant. -/
theorem C8_empty_synthesis_witness :
    synthesis_node c8_oracles [⟨"f1", "a.pdf", "md"⟩] ["f1"] [] ""
      = emptySynthesisResult
    ∧ synthesis_node c8_oracles [⟨"f1", "a.pdf", "md"⟩] ["f1"] [] ""
      = synthesis_node c8_oracles2 [⟨"f1", "a.pdf", "md"⟩] ["f1"] [] "" := by
  have h := C8_empty_synthesis c8_oracles c8_oracles2 [⟨"f1", "a.pdf", "md"⟩] ["f1"] [] ""
    (by decide)
  exact ⟨h.1, h.2.2.2⟩

/-! ## Claims about the pipeline graph and the force-include replay -/

/-- C2 counterexample.  The replay scheduled by the force-include endpoint
starts at the routing stage, not at synthesis, and its stage sequence
re-runs both extraction and validation. -/
theorem C2_counterexample :
    force_include_replay.stages.head? = some "routing"
    ∧ force_include_replay.stages.head? ≠ some "synthesis"
    ∧ "agent_processing" ∈ force_include_replay.stages
    ∧ "validation" ∈ force_include_replay.stages := by
  decide

/-- C2 (amended).  The force-include replay is a full pipeline run from the
routing entry point carrying `force_include_quarantined = true`; validation
is recomputed rather than carried over, and with the flag set it quarantines
no file, so the replay reaches a fresh synthesis and output phase. -/
theorem C2_replay_full_pipeline :
    force_include_replay.stages
      = ["routing", "agent_processing", "normalization", "validation", "synthesis", "output"]
    ∧ force_include_replay.force_include_quarantined = true
    ∧ "synthesis" ∈ force_include_replay.stages
    ∧ "output" ∈ force_include_replay.stages
    ∧ (∀ (env : ValidationEnv) (outs : List NormalizedOutput),
        (validation_node env true outs).2 = []) := by
  refine ⟨by decide, rfl, by decide, by decide, ?_⟩
  intro env outs
  exact validation_node_quarantine_nil env outs

/-! ## Claims about the normalizer -/

/-- C3 counterexample.  The code caps the confidence only from above
(`min(confidence, 1.0)`): a ParsedOutput entering normalization with a
negative confidence leaves it with the same negative confidence, violating
the claimed lower bound `0.0 <= confidence`. -/
theorem C3_counterexample :
    (normalize_output c3_bad).confidence < 0
    ∧ ¬ (0 ≤ (normalize_output c3_bad).confidence
          ∧ (normalize_output c3_bad).confidence ≤ 1) := by
  have h : (normalize_output c3_bad).confidence = -(1 / 2 : ℚ) := by
    show min (-(1 / 2 : ℚ)) 1 = -(1 / 2 : ℚ)
    norm_num
  rw [h]
  norm_num

/-- C3 (amended).  After the Normalizer runs, the confidence is at most 1,
it lies in `[0, 1]` whenever the incoming confidence was non-negative, and
the word count equals the whitespace-token count of the final content. -/
theorem C3_confidence_wordcount (o : ParsedOutput) :
    (normalize_output o).confidence ≤ 1
    ∧ (0 ≤ o.confidence →
        0 ≤ (normalize_output o).confidence ∧ (normalize_output o).confidence ≤ 1)
    ∧ (normalize_output o).word_count = pyWordCount (normalize_output o).markdown := by
  refine ⟨min_le_right o.confidence 1, fun h => ⟨le_min h zero_le_one, min_le_right _ _⟩, rfl⟩

/-- Witness for C3 (amended) at a concrete well-formed output. -/
theorem C3_confidence_wordcount_witness :
    0 ≤ (normalize_output c3_good).confidence
    ∧ (normalize_output c3_good).confidence ≤ 1 :=
  (C3_confidence_wordcount c3_good).2.1 (by norm_num [c3_good])

/-! ## Idempotence facts about the normalization steps -/

lemma dropWhile_rdropWhile_of_clean {α : Type} (p : α → Bool) (m : List α)
    (hm : m.dropWhile p = m) :
    (List.rdropWhile p m).dropWhile p = List.rdropWhile p m := by
  rcases h : List.rdropWhile p m with _ | ⟨a, as⟩
  · rfl
  · obtain ⟨t, ht⟩ := List.rdropWhile_prefix p m
    rw [h] at ht
    subst ht
    rw [List.dropWhile_eq_self_iff] at hm
    have hpa : ¬ p a = true := by
      have := hm (by simp)
      simpa using this
    rw [List.dropWhile_cons, if_neg hpa]

lemma stripList_idem (l : List Char) : stripList (stripList l) = stripList l := by
  show List.rdropWhile isPyWhitespace
      ((List.rdropWhile isPyWhitespace (l.dropWhile isPyWhitespace)).dropWhile isPyWhitespace)
    = List.rdropWhile isPyWhitespace (l.dropWhile isPyWhitespace)
  rw [dropWhile_rdropWhile_of_clean isPyWhitespace _
    (List.dropWhile_idempotent isPyWhitespace l)]
  exact List.rdropWhile_idempotent isPyWhitespace _

lemma pyStrip_idem (s : String) : pyStrip (pyStrip s) = pyStrip s :=
  congrArg String.mk (stripList_idem s.toList)

lemma splitNlChars_ne_nil (l : List Char) : splitNlChars l ≠ [] := by
  cases l with
  | nil => simp [splitNlChars]
  | cons c rest =>
    simp only [splitNlChars]
    rcases splitNlChars rest with _ | ⟨t, ts⟩
    · simp
    · by_cases hc : (c == '\n') = true <;> simp [hc]

lemma splitNlChars_no_nl : ∀ (l : List Char), ∀ t ∈ splitNlChars l, '\n' ∉ t := by
  intro l
  induction l with
  | nil =>
    intro t ht
    simp only [splitNlChars, List.mem_singleton] at ht
    simp [ht]
  | cons c rest ih =>
    intro t ht
    rcases hr : splitNlChars rest with _ | ⟨t0, ts⟩
    · exact absurd hr (splitNlChars_ne_nil rest)
    · simp only [splitNlChars, hr] at ht
      by_cases hc : (c == '\n') = true
      · rw [if_pos hc] at ht
        rcases List.mem_cons.mp ht with h | h
        · simp [h]
        · exact ih t (by rw [hr]; exact h)
      · rw [if_neg hc] at ht
        rcases List.mem_cons.mp ht with h | h
        · subst h
          intro hmem
          rcases List.mem_cons.mp hmem with h2 | h2
          · exact hc (by simp [← h2])
          · exact ih t0 (by rw [hr]; exact List.mem_cons_self t0 ts) h2
        · exact ih t (by rw [hr]; exact List.mem_cons_of_mem t0 h)

lemma splitNlChars_of_no_nl : ∀ (t : List Char), '\n' ∉ t → splitNlChars t = [t] := by
  intro t
  induction t with
  | nil => intro _; rfl
  | cons c rest ih =>
    intro h
    simp only [List.mem_cons, not_or] at h
    have hc : ¬ (c == '\n') = true := by
      simp only [beq_iff_eq]
      exact fun hce => h.1 hce.symm
    simp only [splitNlChars, ih h.2]
    rw [if_neg hc]

lemma splitNlChars_append : ∀ (t r h0 : List Char) (hs : List (List Char)),
    '\n' ∉ t → splitNlChars r = h0 :: hs →
    splitNlChars (t ++ r) = (t ++ h0) :: hs := by
  intro t
  induction t with
  | nil =>
    intro r h0 hs _ hr
    simpa using hr
  | cons c t2 ih =>
    intro r h0 hs hnl hr
    simp only [List.mem_cons, not_or] at hnl
    have hc : ¬ (c == '\n') = true := by
      simp only [beq_iff_eq]
      exact fun hce => hnl.1 hce.symm
    have hrec := ih r h0 hs hnl.2 hr
    show splitNlChars (c :: (t2 ++ r)) = ((c :: t2) ++ h0) :: hs
    simp only [splitNlChars, hrec]
    rw [if_neg hc]
    simp

lemma joinNlChars_cons (t : List Char) (m : List (List Char)) (hm : m ≠ []) :
    joinNlChars (t :: m) = t ++ '\n' :: joinNlChars m := by
  cases m with
  | nil => exact absurd rfl hm
  | cons t2 ts => rfl

lemma splitNl_joinNl : ∀ (m : List (List Char)), m ≠ [] → (∀ t ∈ m, '\n' ∉ t) →
    splitNlChars (joinNlChars m) = m := by
  intro m
  induction m with
  | nil => intro h _; exact absurd rfl h
  | cons t ts ih =>
    intro _ hnl
    cases ts with
    | nil =>
      show splitNlChars (joinNlChars [t]) = [t]
      exact splitNlChars_of_no_nl t (hnl t (List.mem_cons_self t []))
    | cons t2 ts2 =>
      rw [joinNlChars_cons t (t2 :: ts2) (by simp)]
      have hrec : splitNlChars (joinNlChars (t2 :: ts2)) = t2 :: ts2 :=
        ih (by simp) (fun x hx => hnl x (List.mem_cons_of_mem _ hx))
      have hnlsplit : splitNlChars ('\n' :: joinNlChars (t2 :: ts2)) = [] :: t2 :: ts2 := by
        simp only [splitNlChars, hrec]
        rw [if_pos (by rfl)]
      have := splitNlChars_append t ('\n' :: joinNlChars (t2 :: ts2)) [] (t2 :: ts2)
        (hnl t (List.mem_cons_self t _)) hnlsplit
      simpa using this

lemma dedupAux_mem : ∀ (m : List (List Char)) (p x : List Char),
    x ∈ dedupAux p m → x ∈ m := by
  intro m
  induction m with
  | nil => intro p x hx; simp [dedupAux] at hx
  | cons y ys ih =>
    intro p x hx
    rw [show dedupAux p (y :: ys)
        = if y = p then dedupAux p ys else y :: dedupAux y ys from rfl] at hx
    by_cases h : y = p
    · rw [if_pos h] at hx
      exact List.mem_cons_of_mem y (ih p x hx)
    · rw [if_neg h] at hx
      rcases List.mem_cons.mp hx with h2 | h2
      · simp [h2]
      · exact List.mem_cons_of_mem y (ih y x h2)

lemma dedupAux_idem : ∀ (m : List (List Char)) (p : List Char),
    dedupAux p (dedupAux p m) = dedupAux p m := by
  intro m
  induction m with
  | nil => intro p; rfl
  | cons y ys ih =>
    intro p
    rw [show dedupAux p (y :: ys)
        = if y = p then dedupAux p ys else y :: dedupAux y ys from rfl]
    by_cases h : y = p
    · rw [if_pos h]
      exact ih p
    · rw [if_neg h,
        show dedupAux p (y :: dedupAux y ys)
          = if y = p then dedupAux p (dedupAux y ys) else y :: dedupAux y (dedupAux y ys)
          from rfl,
        if_neg h, ih y]

lemma dedupChars_mem (m : List (List Char)) (x : List Char) :
    x ∈ dedupChars m → x ∈ m := by
  cases m with
  | nil => intro hx; simp [dedupChars] at hx
  | cons t ts =>
    intro hx
    rcases List.mem_cons.mp hx with h | h
    · simp [h]
    · exact List.mem_cons_of_mem t (dedupAux_mem ts t x h)

lemma dedupChars_ne_nil (m : List (List Char)) (hm : m ≠ []) : dedupChars m ≠ [] := by
  cases m with
  | nil => exact absurd rfl hm
  | cons t ts => simp [dedupChars]

lemma dedupChars_idem (m : List (List Char)) : dedupChars (dedupChars m) = dedupChars m := by
  cases m with
  | nil => rfl
  | cons t ts =>
    show t :: dedupAux t (dedupAux t ts) = t :: dedupAux t ts
    rw [dedupAux_idem]

lemma dedup_idem (s : String) :
    deduplicate_consecutive_lines (deduplicate_consecutive_lines s)
      = deduplicate_consecutive_lines s := by
  unfold deduplicate_consecutive_lines
  have htl : (String.mk (joinNlChars (dedupChars (splitNlChars s.toList)))).toList
      = joinNlChars (dedupChars (splitNlChars s.toList)) := rfl
  rw [htl]
  have h1 : splitNlChars s.toList ≠ [] := splitNlChars_ne_nil s.toList
  have h2 : ∀ t ∈ dedupChars (splitNlChars s.toList), '\n' ∉ t :=
    fun t ht => splitNlChars_no_nl s.toList t (dedupChars_mem _ t ht)
  rw [splitNl_joinNl (dedupChars (splitNlChars s.toList)) (dedupChars_ne_nil _ h1) h2,
    dedupChars_idem]

/-! ## Claims about normalizer idempotence -/

/-- C5 counterexample.  On a markdown body whose duplicated, non-canonical
separator row sits above a table row, the first pass removes the duplicate
(exposing the separator-shaped row as an apparent header) and the second
pass then inserts an extra `| --- |` row: applying normalization twice
differs from applying it once. -/
theorem C5_counterexample :
    normalize_output (normalize_output c5_bad) ≠ normalize_output c5_bad := by
  decide

/-- C5 (amended).  Normalization is not idempotent as a whole (see the
table-separator interaction of the counterexample), but the trim and
consecutive-duplicate-removal steps are each idempotent, and a second
normalization never changes the confidence. -/
theorem C5_steps_idempotent :
    (∀ s, pyStrip (pyStrip s) = pyStrip s)
    ∧ (∀ s, deduplicate_consecutive_lines (deduplicate_consecutive_lines s)
        = deduplicate_consecutive_lines s)
    ∧ (∀ o : ParsedOutput,
        (normalize_output (normalize_output o)).confidence
          = (normalize_output o).confidence) := by
  refine ⟨pyStrip_idem, dedup_idem, fun o => ?_⟩
  show min (min o.confidence 1) 1 = min o.confidence 1
  rw [min_assoc, min_self]

end LCA
